import Mathlib

/-!
Shallow embedding of `src/scraper.py` (a Selenium-based web scraper) for
verification of its specification.  Python strings are modelled as Lean
`String`s, DOM elements as records carrying their visible text and the
number of star-marker nodes, and the browser interactions of each pass as
an explicit script of observed page states.  Each definition mirrors the
corresponding Python function line by line.
-/

namespace Scraper

/-! ## String helpers modelling Python's str operations -/

/-- Python `str.strip()`: drop leading and trailing whitespace. -/
def pyStrip (s : String) : String :=
  ⟨((s.data.dropWhile Char.isWhitespace).reverse.dropWhile Char.isWhitespace).reverse⟩

/-- Helper for `pySplitNl`: split a character list at newline characters. -/
def splitNlAux : List Char → List Char → List String
  | [], cur => [⟨cur.reverse⟩]
  | c :: cs, cur =>
    if c = '\n' then ⟨cur.reverse⟩ :: splitNlAux cs []
    else splitNlAux cs (c :: cur)

/-- Python `s.split("\n")`: never returns an empty list; `"".split("\n") = [""]`. -/
def pySplitNl (s : String) : List String :=
  splitNlAux s.data []

/-- Python `s.replace("\n", " ")`. -/
def pyReplaceNlSpace (s : String) : String :=
  ⟨s.data.map (fun c => if c = '\n' then ' ' else c)⟩

/-- Python `s.lower()` (ASCII letters, which is all the code compares). -/
def pyLower (s : String) : String :=
  ⟨s.data.map Char.toLower⟩

/-- Python `len(s)`: number of characters. -/
def pyLen (s : String) : Nat :=
  s.data.length

/-- Helper for `strContains`: is `needle` an infix of the character list? -/
def subOf (needle : List Char) : List Char → Bool
  | [] => needle.isEmpty
  | c :: cs => needle.isPrefixOf (c :: cs) || subOf needle cs

/-- Python `needle in hay` for strings: substring containment. -/
def strContains (hay needle : String) : Bool :=
  subOf needle.data hay.data

/-! ## The price regex `[$€£]?\s*\d+\.\d{2}` (scraper.py line 64)

`re.search` returns the leftmost match.  The pattern is deterministic:
after the optional currency symbol, `\s*` is forced maximal (whitespace is
never a digit), `\d+` is forced maximal (giving back digits never exposes
the required dot), then a dot and exactly two digits are required. -/

/-- Match `\d+\.\d{2}` at the head of the list, returning the matched chars. -/
def matchNum (cs : List Char) : Option (List Char) :=
  let ds := cs.takeWhile Char.isDigit
  let rest := cs.dropWhile Char.isDigit
  if ds.isEmpty then none
  else
    match rest with
    | '.' :: d1 :: d2 :: _ =>
      if d1.isDigit && d2.isDigit then some (ds ++ ['.', d1, d2]) else none
    | _ => none

/-- Match `\s*\d+\.\d{2}` at the head of the list. -/
def matchAfterCur (cs : List Char) : Option (List Char) :=
  let ws := cs.takeWhile Char.isWhitespace
  let rest := cs.dropWhile Char.isWhitespace
  (matchNum rest).map (fun m => ws ++ m)

/-- Match the full pattern `[$€£]?\s*\d+\.\d{2}` at the head of the list.
If the currency branch fails, the empty-currency alternative at the same
position also fails (a currency symbol is neither whitespace nor a digit),
which the fallback arm mirrors. -/
def matchPriceAt (cs : List Char) : Option (List Char) :=
  match cs with
  | c :: rest =>
    if c = '$' || c = '€' || c = '£' then
      match matchAfterCur rest with
      | some m => some (c :: m)
      | none => matchAfterCur cs
    else matchAfterCur cs
  | [] => none

/-- Leftmost-match search for the price pattern, as `re.search` does. -/
def searchPriceAux : List Char → Option (List Char)
  | [] => none
  | c :: cs =>
    match matchPriceAt (c :: cs) with
    | some m => some m
    | none => searchPriceAux cs

/-- `re.search(r'[$€£]?\s*\d+\.\d{2}', s)`, returning the matched text. -/
def priceSearch (s : String) : Option String :=
  (searchPriceAux s.data).map (fun m => ⟨m⟩)

/-! ## The year regex `(20\d{2})` (scraper.py line 111) -/

/-- Match `20\d{2}` at the head of the list, returning the year as an
integer, as `int(year_match.group(1))` does. -/
def yearAt : List Char → Option Nat
  | c0 :: c1 :: d1 :: d2 :: _ =>
    if c0 = '2' ∧ c1 = '0' ∧ d1.isDigit ∧ d2.isDigit then
      some (2000 + 10 * (d1.toNat - 48) + (d2.toNat - 48))
    else none
  | _ => none

/-- Leftmost-match search for the year pattern. -/
def yearSearchAux : List Char → Option Nat
  | [] => none
  | c :: cs =>
    match yearAt (c :: cs) with
    | some y => some y
    | none => yearSearchAux cs

/-- `re.search(r"(20\d{2})", line)` parsed to an integer year. -/
def yearSearch (line : String) : Option Nat :=
  yearSearchAux line.data

/-! ## DOM elements and star-rating extraction (scraper.py lines 12-23) -/

/-- A DOM element as the scraper observes it: its visible text, the number
of descendant `path` nodes with `fill='#ffce31'`, and whether the star
lookup raises (the `except` branch of `extract_star_rating`). -/
structure Elem where
  text : String
  starNodes : Nat
  lookupFails : Bool
deriving Repr, DecidableEq

/-- `extract_star_rating`: `min(len(stars), 5)`, or `0` on any exception. -/
def extract_star_rating (e : Elem) : Nat :=
  if e.lookupFails then 0 else min e.starNodes 5

/-- Python's `n or d` for integers: `d` when `n == 0` (falsy), else `n`. -/
def pyOrInt (n d : Nat) : Nat :=
  if n = 0 then d else n

/-- The rating stored in a record: `extract_star_rating(block) or 5`. -/
def ratingOf (e : Elem) : Nat :=
  pyOrInt (extract_star_rating e) 5

/-! ## Products pass (scraper.py lines 36-83) -/

structure Product where
  title : String
  price : String
deriving Repr, DecidableEq

/-- The per-card body of `collect_products` (lines 60-67): first line of the
stripped text is the title, the price is the regex match or `"N/A"`, and a
card is kept only when the title is non-empty and not `"log in"`. -/
def parse_product (text : String) : Option Product :=
  let raw := pyStrip text
  let lines := pySplitNl raw
  let title := lines.headD ""
  let price := (priceSearch raw).getD "N/A"
  if title ≠ "" ∧ pyLower title ≠ "log in" then some { title := title, price := price }
  else none

/-- One card step of `collect_products` (lines 58-73): parse, then append
only when no accepted product already carries the same title, counting
newly added records. -/
def processCard (acc : List Product × Nat) (text : String) : List Product × Nat :=
  match parse_product text with
  | none => acc
  | some p =>
    if acc.1.any (fun q => q.title == p.title) then acc
    else (acc.1 ++ [p], acc.2 + 1)

/-- One page of `collect_products`: fold the card step over the page's
cards, starting a fresh `newly_added` counter. -/
def processPage (cards : List String) (products : List Product) : List Product × Nat :=
  cards.foldl processCard (products, 0)

/-- The page loop of `collect_products` (lines 44-81) over a script of
pages (pages beyond the script yield zero cards).  Returns the accepted
products and the number of pages fetched. -/
def collectProductsAux : List (List String) → List Product → List Product × Nat
  | [], acc => (acc, 1)
  | cards :: rest, acc =>
    if cards.isEmpty then (acc, 1)
    else
      let step := processPage cards acc
      if step.2 = 0 then (step.1, 1)
      else
        let next := collectProductsAux rest step.1
        (next.1, next.2 + 1)

/-- `collect_products`, starting from the empty list at page 1. -/
def collect_products (pages : List (List String)) : List Product × Nat :=
  collectProductsAux pages []

/-! ## Reviews pass (scraper.py lines 86-162) -/

structure Review where
  date : String
  text : String
  rating : Nat
deriving Repr, DecidableEq

/-- Lines 110-115: scan the block's lines for the first one containing a
year token, returning that line together with the parsed year. -/
def firstYearLine : List String → Option (String × Nat)
  | [] => none
  | l :: ls =>
    match yearSearch l with
    | some y => some (l, y)
    | none => firstYearLine ls

/-- Python `max(lines, key=len)`: the first line of maximal length. -/
def maxByLen : List String → String
  | [] => ""
  | l :: ls => ls.foldl (fun best x => if pyLen best < pyLen x then x else best) l

/-- What the scraper observes when it tries the "load more" control:
the control is missing (`find_element` raises), present but hidden
(`is_displayed()` is false), present and clicked but the bounded wait for
more blocks times out (`wait.until` raises), or new blocks load. -/
inductive LoadMoreOutcome
  | absent
  | notVisible
  | timeout
  | loaded
deriving Repr, DecidableEq

/-- One iteration of the review loop as the site presents it: the full
list of currently loaded review blocks (the code re-scans all of them),
and the outcome of the load-more attempt. -/
structure ReviewPage where
  blocks : List Elem
  outcome : LoadMoreOutcome
deriving Repr

/-- Lines 145-157 before the `except`: the load-more attempt either raises
(absent control, timed-out wait), reports a hidden control (`.ok false`),
or loads more content (`.ok true`). -/
def loadMoreAttempt : LoadMoreOutcome → Except String Bool
  | .absent => .error "NoSuchElementException"
  | .notVisible => .ok false
  | .timeout => .error "TimeoutException"
  | .loaded => .ok true

/-- Lines 145-159 with the `except Exception: break` handler: any raised
exception degrades to a normal stop, so the loop continues only on
`.ok true`. -/
def loadMoreContinue (o : LoadMoreOutcome) : Bool :=
  match loadMoreAttempt o with
  | .ok b => b
  | .error _ => false

/-- Lines 103-136: scan the loaded blocks in order, accumulating accepted
reviews; the second component is `reached_old_reviews`, set when a dated
block's year is below 2023, which stops the scan at that block. -/
def scanBlocks : List Elem → List Review → List Review × Bool
  | [], acc => (acc, false)
  | b :: bs, acc =>
    let lines := pySplitNl (pyStrip b.text)
    match firstYearLine lines with
    | none => scanBlocks bs acc
    | some (date, year) =>
      if year < 2023 then (acc, true)
      else
        let text := maxByLen lines
        let rating := ratingOf b
        let acc' :=
          if acc.any (fun r => r.text == text) then acc
          else acc ++ [{ date := date, text := text, rating := rating }]
        scanBlocks bs acc'

/-- The `while not reached_old_reviews` loop (lines 100-159) over a script
of page states: scan the current blocks; stop on the cutoff flag or when
the load-more attempt does not produce new content, else iterate. -/
def collectReviewsLoop : List ReviewPage → List Review → List Review
  | [], acc => acc
  | p :: ps, acc =>
    let step := scanBlocks p.blocks acc
    if step.2 then step.1
    else if loadMoreContinue p.outcome then collectReviewsLoop ps step.1
    else step.1

/-- `collect_reviews`, starting from the empty list. -/
def collect_reviews (script : List ReviewPage) : List Review :=
  collectReviewsLoop script []

/-! ## Testimonials pass (scraper.py lines 165-210) -/

structure Testimonial where
  text : String
  rating : Nat
deriving Repr, DecidableEq

/-- Lines 190-198: collapse newlines to spaces and strip; reject the block
when it contains a boilerplate marker or its length is below 10 or above
400. -/
def parse_testimonial_text (raw : String) : Option String :=
  let text := pyStrip (pyReplaceNlSpace raw)
  if strContains text "Take a look" || strContains text "collection"
      || pyLen text < 10 || pyLen text > 400 then none
  else some text

/-- One card step of `collect_testimonials` (lines 188-204). -/
def processTestimonial (acc : List Testimonial) (card : Elem) : List Testimonial :=
  match parse_testimonial_text card.text with
  | none => acc
  | some text =>
    if acc.any (fun t => t.text == text) then acc
    else acc ++ [{ text := text, rating := ratingOf card }]

/-- `collect_testimonials`: after scrolling stabilises, a single fold over
the located testimonial cards. -/
def collect_testimonials (cards : List Elem) : List Testimonial :=
  cards.foldl processTestimonial []

/-! ## Orchestrator (scraper.py lines 213-235) -/

structure Document where
  products : List Product
  reviews : List Review
  testimonials : List Testimonial
deriving Repr, DecidableEq

/-- The outcome of one run: whether `driver.quit()` ran, the document
written (if any), and the propagated exception (if any). -/
structure RunResult where
  driverQuit : Bool
  written : Option Document
  error : Option String
deriving Repr, DecidableEq

/-- Lines 220-224: the three passes in order; the first raised exception
aborts the collection phase. -/
def runCollection (pr : Except String (List Product))
    (rr : Except String (List Review))
    (tr : Except String (List Testimonial)) : Except String Document :=
  match pr with
  | .error e => .error e
  | .ok p =>
    match rr with
    | .error e => .error e
    | .ok r =>
      match tr with
      | .error e => .error e
      | .ok t => .ok { products := p, reviews := r, testimonials := t }

/-- `run_scraper` (lines 213-235): `try`/`finally` guarantees
`driver.quit()` on both exit paths; the document is written only after all
three passes complete, so an aborted run writes nothing. -/
def run_scraper (pr : Except String (List Product))
    (rr : Except String (List Review))
    (tr : Except String (List Testimonial)) : RunResult :=
  match runCollection pr rr tr with
  | .ok doc => { driverQuit := true, written := some doc, error := none }
  | .error e => { driverQuit := true, written := none, error := some e }

/-! ## Helper lemmas -/

/-- Unfolding equation for `scanBlocks` on a non-empty block list. -/
theorem scanBlocks_cons (b : Elem) (bs : List Elem) (acc : List Review) :
    scanBlocks (b :: bs) acc =
      match firstYearLine (pySplitNl (pyStrip b.text)) with
      | none => scanBlocks bs acc
      | some (date, year) =>
        if year < 2023 then (acc, true)
        else
          scanBlocks bs
            (if acc.any (fun r => r.text == maxByLen (pySplitNl (pyStrip b.text))) then acc
             else acc ++ [{ date := date, text := maxByLen (pySplitNl (pyStrip b.text)),
                            rating := ratingOf b }]) := rfl

/-- Unfolding equation for `collectReviewsLoop` on a non-empty script. -/
theorem collectReviewsLoop_cons (p : ReviewPage) (ps : List ReviewPage) (acc : List Review) :
    collectReviewsLoop (p :: ps) acc =
      if (scanBlocks p.blocks acc).2 then (scanBlocks p.blocks acc).1
      else if loadMoreContinue p.outcome then collectReviewsLoop ps (scanBlocks p.blocks acc).1
      else (scanBlocks p.blocks acc).1 := rfl

/-- Unfolding equation for `collectProductsAux` on a non-empty page list. -/
theorem collectProductsAux_cons (cards : List String) (rest : List (List String))
    (acc : List Product) :
    collectProductsAux (cards :: rest) acc =
      if cards.isEmpty then (acc, 1)
      else if (processPage cards acc).2 = 0 then ((processPage cards acc).1, 1)
      else ((collectProductsAux rest (processPage cards acc).1).1,
            (collectProductsAux rest (processPage cards acc).1).2 + 1) := rfl

/-- The stored rating is always positive: Python's `or 5` replaces 0. -/
theorem ratingOf_pos (e : Elem) : 1 ≤ ratingOf e := by
  unfold ratingOf pyOrInt
  split <;> omega

/-- `extract_star_rating` clamps to 5. -/
theorem extract_star_rating_le (e : Elem) : extract_star_rating e ≤ 5 := by
  unfold extract_star_rating
  split <;> omega

/-- The stored rating never exceeds 5. -/
theorem ratingOf_le_five (e : Elem) : ratingOf e ≤ 5 := by
  have hle := extract_star_rating_le e
  unfold ratingOf pyOrInt
  split <;> omega

/-- With at least one matched star node and no lookup failure, the stored
rating is the clamped node count. -/
theorem ratingOf_eq_min (e : Elem) (hf : e.lookupFails = false) (hn : 0 < e.starNodes) :
    ratingOf e = min e.starNodes 5 := by
  unfold ratingOf pyOrInt extract_star_rating
  rw [hf]
  simp only [Bool.false_eq_true, if_false]
  split
  · omega
  · rfl

/-- A zero result of `extract_star_rating` is replaced by the default 5. -/
theorem ratingOf_of_zero (e : Elem) (h : extract_star_rating e = 0) : ratingOf e = 5 := by
  unfold ratingOf pyOrInt
  rw [h]
  simp

/-- A digit character's code point lies between 48 and 57. -/
theorem digit_toNat (c : Char) (h : c.isDigit = true) : 48 ≤ c.toNat ∧ c.toNat ≤ 57 := by
  simp [Char.isDigit] at h
  exact h

/-- Any year produced by `yearAt` lies in 2000..2099. -/
theorem yearAt_bound (cs : List Char) (y : Nat) (h : yearAt cs = some y) :
    2000 ≤ y ∧ y ≤ 2099 := by
  match cs with
  | [] => simp [yearAt] at h
  | [c] => simp [yearAt] at h
  | [c, c1] => simp [yearAt] at h
  | [c, c1, c2] => simp [yearAt] at h
  | c0 :: c1 :: d1 :: d2 :: rest =>
    replace h : (if c0 = '2' ∧ c1 = '0' ∧ d1.isDigit = true ∧ d2.isDigit = true then
        some (2000 + 10 * (d1.toNat - 48) + (d2.toNat - 48)) else none) = some y := h
    by_cases hc : c0 = '2' ∧ c1 = '0' ∧ d1.isDigit = true ∧ d2.isDigit = true
    · rw [if_pos hc] at h
      obtain ⟨-, -, hd1, hd2⟩ := hc
      obtain ⟨h1l, h1u⟩ := digit_toNat d1 hd1
      obtain ⟨h2l, h2u⟩ := digit_toNat d2 hd2
      injection h with h
      omega
    · rw [if_neg hc] at h
      exact absurd h (by simp)

/-- Any year produced by the leftmost search lies in 2000..2099. -/
theorem yearSearchAux_bound (cs : List Char) (y : Nat) (h : yearSearchAux cs = some y) :
    2000 ≤ y ∧ y ≤ 2099 := by
  induction cs with
  | nil => simp [yearSearchAux] at h
  | cons c cs ih =>
    unfold yearSearchAux at h
    rcases hm : yearAt (c :: cs) with _ | y'
    · rw [hm] at h
      exact ih h
    · rw [hm] at h
      injection h with h
      subst h
      exact yearAt_bound _ _ hm

/-- Any year parsed from a line lies in 2000..2099. -/
theorem yearSearch_bound (line : String) (y : Nat) (h : yearSearch line = some y) :
    2000 ≤ y ∧ y ≤ 2099 :=
  yearSearchAux_bound _ _ h

/-- `firstYearLine` returns a member line together with its parsed year. -/
theorem firstYearLine_mem (ls : List String) (l : String) (y : Nat)
    (h : firstYearLine ls = some (l, y)) : l ∈ ls ∧ yearSearch l = some y := by
  induction ls with
  | nil => simp [firstYearLine] at h
  | cons a as ih =>
    unfold firstYearLine at h
    rcases hm : yearSearch a with _ | y'
    · rw [hm] at h
      obtain ⟨hmem, hy⟩ := ih h
      exact ⟨List.mem_cons_of_mem _ hmem, hy⟩
    · rw [hm] at h
      injection h with h
      cases h
      exact ⟨List.mem_cons_self _ _, hm⟩

/-- A line with no year match is skipped by `firstYearLine`. -/
theorem firstYearLine_skip (l : String) (ls : List String) (h : yearSearch l = none) :
    firstYearLine (l :: ls) = firstYearLine ls := by
  simp only [firstYearLine, h]

/-- A line with a year match is chosen by `firstYearLine`. -/
theorem firstYearLine_hit (l : String) (ls : List String) (y : Nat)
    (h : yearSearch l = some y) : firstYearLine (l :: ls) = some (l, y) := by
  simp only [firstYearLine, h]

/-- Fold invariant: a property preserved by each step holds of the result. -/
theorem foldl_preserve {α β : Type} (step : β → α → β) (P : β → Prop)
    (hstep : ∀ b a, P b → P (step b a)) :
    ∀ (l : List α) (b : β), P b → P (l.foldl step b) := by
  intro l
  induction l with
  | nil => intro b hb; simpa using hb
  | cons a l ih => intro b hb; exact ih (step b a) (hstep b a hb)

/-- A false `any` over review texts means no member carries that text. -/
theorem review_any_false {acc : List Review} {t : String}
    (h : acc.any (fun r => r.text == t) = false) : ∀ a ∈ acc, a.text ≠ t := by
  intro a ha heq
  have : acc.any (fun r => r.text == t) = true :=
    List.any_eq_true.2 ⟨a, ha, by simp [heq]⟩
  rw [h] at this
  exact Bool.noConfusion this

/-- A false `any` over product titles means no member carries that title. -/
theorem product_any_false {acc : List Product} {t : String}
    (h : acc.any (fun q => q.title == t) = false) : ∀ a ∈ acc, a.title ≠ t := by
  intro a ha heq
  have : acc.any (fun q => q.title == t) = true :=
    List.any_eq_true.2 ⟨a, ha, by simp [heq]⟩
  rw [h] at this
  exact Bool.noConfusion this

/-- A false `any` over testimonial texts means no member carries that text. -/
theorem testimonial_any_false {acc : List Testimonial} {t : String}
    (h : acc.any (fun q => q.text == t) = false) : ∀ a ∈ acc, a.text ≠ t := by
  intro a ha heq
  have : acc.any (fun q => q.text == t) = true :=
    List.any_eq_true.2 ⟨a, ha, by simp [heq]⟩
  rw [h] at this
  exact Bool.noConfusion this

/-- Scan invariant: properties of every accepted review, given that every
freshly built review record satisfies them. -/
theorem scanBlocks_mem (P : Review → Prop)
    (hnew : ∀ (b : Elem) (l : String) (y : Nat),
      firstYearLine (pySplitNl (pyStrip b.text)) = some (l, y) → ¬ y < 2023 →
      P { date := l, text := maxByLen (pySplitNl (pyStrip b.text)), rating := ratingOf b }) :
    ∀ (bs : List Elem) (acc : List Review), (∀ r ∈ acc, P r) →
      ∀ r ∈ (scanBlocks bs acc).1, P r := by
  intro bs
  induction bs with
  | nil => intro acc hacc r hr; exact hacc r hr
  | cons b bs ih =>
    intro acc hacc r hr
    rw [scanBlocks_cons] at hr
    rcases hfy : firstYearLine (pySplitNl (pyStrip b.text)) with _ | ⟨l, y⟩
    · simp only [hfy] at hr
      exact ih acc hacc r hr
    · simp only [hfy] at hr
      by_cases hy : y < 2023
      · rw [if_pos hy] at hr
        exact hacc r hr
      · rw [if_neg hy] at hr
        by_cases hdup :
            acc.any (fun r => r.text == maxByLen (pySplitNl (pyStrip b.text))) = true
        · rw [if_pos hdup] at hr
          exact ih acc hacc r hr
        · rw [if_neg hdup] at hr
          refine ih _ ?_ r hr
          intro r' hr'
          rcases List.mem_append.1 hr' with h1 | h2
          · exact hacc r' h1
          · rcases List.mem_singleton.1 h2 with rfl
            exact hnew b l y hfy hy

/-- The scan preserves pairwise-distinct review texts. -/
theorem scanBlocks_pairwise :
    ∀ (bs : List Elem) (acc : List Review),
      acc.Pairwise (fun a b => a.text ≠ b.text) →
      (scanBlocks bs acc).1.Pairwise (fun a b => a.text ≠ b.text) := by
  intro bs
  induction bs with
  | nil => intro acc hacc; exact hacc
  | cons b bs ih =>
    intro acc hacc
    rw [scanBlocks_cons]
    rcases hfy : firstYearLine (pySplitNl (pyStrip b.text)) with _ | ⟨l, y⟩
    · simp only [hfy]
      exact ih acc hacc
    · simp only [hfy]
      by_cases hy : y < 2023
      · rw [if_pos hy]
        exact hacc
      · rw [if_neg hy]
        by_cases hdup :
            acc.any (fun r => r.text == maxByLen (pySplitNl (pyStrip b.text))) = true
        · rw [if_pos hdup]
          exact ih acc hacc
        · rw [if_neg hdup]
          refine ih _ ?_
          rw [List.pairwise_append]
          refine ⟨hacc, List.pairwise_singleton _ _, ?_⟩
          intro a ha b' hb'
          rcases List.mem_singleton.1 hb' with rfl
          rw [Bool.not_eq_true] at hdup
          exact review_any_false hdup a ha

/-- Loop invariant for accepted reviews over any script. -/
theorem collectReviewsLoop_mem (P : Review → Prop)
    (hnew : ∀ (b : Elem) (l : String) (y : Nat),
      firstYearLine (pySplitNl (pyStrip b.text)) = some (l, y) → ¬ y < 2023 →
      P { date := l, text := maxByLen (pySplitNl (pyStrip b.text)), rating := ratingOf b }) :
    ∀ (script : List ReviewPage) (acc : List Review), (∀ r ∈ acc, P r) →
      ∀ r ∈ collectReviewsLoop script acc, P r := by
  intro script
  induction script with
  | nil => intro acc hacc r hr; exact hacc r hr
  | cons p ps ih =>
    intro acc hacc r hr
    rw [collectReviewsLoop_cons] at hr
    have hstep := scanBlocks_mem P hnew p.blocks acc hacc
    by_cases h2 : (scanBlocks p.blocks acc).2 = true
    · rw [if_pos h2] at hr
      exact hstep r hr
    · rw [if_neg h2] at hr
      by_cases hlm : loadMoreContinue p.outcome = true
      · rw [if_pos hlm] at hr
        exact ih _ hstep r hr
      · rw [if_neg hlm] at hr
        exact hstep r hr

/-- The loop preserves pairwise-distinct review texts. -/
theorem collectReviewsLoop_pairwise :
    ∀ (script : List ReviewPage) (acc : List Review),
      acc.Pairwise (fun a b => a.text ≠ b.text) →
      (collectReviewsLoop script acc).Pairwise (fun a b => a.text ≠ b.text) := by
  intro script
  induction script with
  | nil => intro acc hacc; exact hacc
  | cons p ps ih =>
    intro acc hacc
    rw [collectReviewsLoop_cons]
    have hstep := scanBlocks_pairwise p.blocks acc hacc
    by_cases h2 : (scanBlocks p.blocks acc).2 = true
    · rw [if_pos h2]
      exact hstep
    · rw [if_neg h2]
      by_cases hlm : loadMoreContinue p.outcome = true
      · rw [if_pos hlm]
        exact ih _ hstep
      · rw [if_neg hlm]
        exact hstep

/-- One card step preserves pairwise-distinct product titles. -/
theorem processCard_pairwise (acc : List Product × Nat) (text : String)
    (h : acc.1.Pairwise (fun a b => a.title ≠ b.title)) :
    (processCard acc text).1.Pairwise (fun a b => a.title ≠ b.title) := by
  rcases hp : parse_product text with _ | p <;> simp only [processCard, hp]
  · exact h
  · by_cases hdup : acc.1.any (fun q => q.title == p.title) = true
    · rw [if_pos hdup]
      exact h
    · rw [if_neg hdup]
      rw [Bool.not_eq_true] at hdup
      refine List.pairwise_append.2 ⟨h, List.pairwise_singleton _ _, ?_⟩
      intro a ha b hb
      rcases List.mem_singleton.1 hb with rfl
      exact product_any_false hdup a ha

/-- One page preserves pairwise-distinct product titles. -/
theorem processPage_pairwise (cards : List String) (acc : List Product)
    (h : acc.Pairwise (fun a b => a.title ≠ b.title)) :
    (processPage cards acc).1.Pairwise (fun a b => a.title ≠ b.title) :=
  foldl_preserve processCard (fun s => s.1.Pairwise (fun a b => a.title ≠ b.title))
    (fun s t hs => processCard_pairwise s t hs) cards (acc, 0) h

/-- The page loop preserves pairwise-distinct product titles. -/
theorem collectProductsAux_pairwise :
    ∀ (pages : List (List String)) (acc : List Product),
      acc.Pairwise (fun a b => a.title ≠ b.title) →
      (collectProductsAux pages acc).1.Pairwise (fun a b => a.title ≠ b.title) := by
  intro pages
  induction pages with
  | nil => intro acc hacc; exact hacc
  | cons cards rest ih =>
    intro acc hacc
    rw [collectProductsAux_cons]
    by_cases he : cards.isEmpty = true
    · rw [if_pos he]
      exact hacc
    · rw [if_neg he]
      by_cases hz : (processPage cards acc).2 = 0
      · rw [if_pos hz]
        exact processPage_pairwise cards acc hacc
      · rw [if_neg hz]
        exact ih _ (processPage_pairwise cards acc hacc)

/-- One testimonial step: properties of every accepted testimonial, given
that every freshly built record satisfies them. -/
theorem processTestimonial_mem (Q : Testimonial → Prop)
    (hnew : ∀ (card : Elem) (text : String), parse_testimonial_text card.text = some text →
      Q { text := text, rating := ratingOf card })
    (acc : List Testimonial) (card : Elem) (hacc : ∀ t ∈ acc, Q t) :
    ∀ t ∈ processTestimonial acc card, Q t := by
  rcases hp : parse_testimonial_text card.text with _ | text <;>
    simp only [processTestimonial, hp]
  · exact hacc
  · by_cases hdup : acc.any (fun t => t.text == text) = true
    · rw [if_pos hdup]
      exact hacc
    · rw [if_neg hdup]
      intro t ht
      rcases List.mem_append.1 ht with h1 | h2
      · exact hacc t h1
      · rcases List.mem_singleton.1 h2 with rfl
        exact hnew card text hp

/-- Every collected testimonial satisfies any property of fresh records. -/
theorem collect_testimonials_mem (Q : Testimonial → Prop)
    (hnew : ∀ (card : Elem) (text : String), parse_testimonial_text card.text = some text →
      Q { text := text, rating := ratingOf card })
    (cards : List Elem) : ∀ t ∈ collect_testimonials cards, Q t :=
  foldl_preserve processTestimonial (fun s => ∀ t ∈ s, Q t)
    (fun acc card hacc => processTestimonial_mem Q hnew acc card hacc) cards []
    (by intro t ht; exact absurd ht (List.not_mem_nil t))

/-- One testimonial step preserves pairwise-distinct texts. -/
theorem processTestimonial_pairwise (acc : List Testimonial) (card : Elem)
    (h : acc.Pairwise (fun a b => a.text ≠ b.text)) :
    (processTestimonial acc card).Pairwise (fun a b => a.text ≠ b.text) := by
  rcases hp : parse_testimonial_text card.text with _ | text <;>
    simp only [processTestimonial, hp]
  · exact h
  · by_cases hdup : acc.any (fun t => t.text == text) = true
    · rw [if_pos hdup]
      exact h
    · rw [if_neg hdup]
      rw [Bool.not_eq_true] at hdup
      refine List.pairwise_append.2 ⟨h, List.pairwise_singleton _ _, ?_⟩
      intro a ha b hb
      rcases List.mem_singleton.1 hb with rfl
      exact testimonial_any_false hdup a ha

/-- Accepting a testimonial forces the filter conditions to be false. -/
theorem parse_testimonial_text_spec (raw text : String)
    (h : parse_testimonial_text raw = some text) :
    text = pyStrip (pyReplaceNlSpace raw) ∧
    strContains text "Take a look" = false ∧ strContains text "collection" = false ∧
    10 ≤ pyLen text ∧ pyLen text ≤ 400 := by
  simp only [parse_testimonial_text] at h
  split at h
  · exact Option.noConfusion h
  · rename_i hc
    injection h with h
    subst h
    simp only [Bool.or_eq_true, decide_eq_true_eq, not_or] at hc
    obtain ⟨⟨⟨h1, h2⟩, h3⟩, h4⟩ := hc
    exact ⟨rfl, by simpa using h1, by simpa using h2, by omega, by omega⟩

/-- All collected testimonials carry pairwise-distinct texts. -/
theorem collect_testimonials_pairwise (cards : List Elem) :
    (collect_testimonials cards).Pairwise (fun a b => a.text ≠ b.text) :=
  foldl_preserve processTestimonial (fun s => s.Pairwise (fun a b => a.text ≠ b.text))
    (fun acc card h => processTestimonial_pairwise acc card h) cards [] List.Pairwise.nil

/-- With no price match in the stripped card text, the parsed price is the
`"N/A"` sentinel. -/
theorem parse_product_price_sentinel (text : String) (p : Product)
    (hn : priceSearch (pyStrip text) = none) (h : parse_product text = some p) :
    p.price = "N/A" := by
  simp only [parse_product] at h
  split at h
  · injection h with h
    subst h
    simp [hn]
  · exact Option.noConfusion h

/-- A collapsed text shorter than 10 characters is rejected. -/
theorem parse_testimonial_reject_short (raw : String)
    (h : pyLen (pyStrip (pyReplaceNlSpace raw)) < 10) :
    parse_testimonial_text raw = none := by
  simp [parse_testimonial_text, h]

/-- A collapsed text longer than 400 characters is rejected. -/
theorem parse_testimonial_reject_long (raw : String)
    (h : 400 < pyLen (pyStrip (pyReplaceNlSpace raw))) :
    parse_testimonial_text raw = none := by
  simp [parse_testimonial_text, h]

/-- A collapsed text containing the first boilerplate marker is rejected. -/
theorem parse_testimonial_reject_look (raw : String)
    (h : strContains (pyStrip (pyReplaceNlSpace raw)) "Take a look" = true) :
    parse_testimonial_text raw = none := by
  simp [parse_testimonial_text, h]

/-- A collapsed text containing the second boilerplate marker is rejected. -/
theorem parse_testimonial_reject_collection (raw : String)
    (h : strContains (pyStrip (pyReplaceNlSpace raw)) "collection" = true) :
    parse_testimonial_text raw = none := by
  simp [parse_testimonial_text, h]

/-! ## Claim theorems -/

/-- C1: every accepted review's parsed year is at least 2023; the scan
stops on the first block whose year is below 2023 without accepting it,
and the loop then processes no further page; on the blocks
`["Jan 2023", "Dec 2022"]` exactly the Jan 2023 review is produced. -/
theorem claim_C1_temporal_cutoff :
    (∀ (script : List ReviewPage) (r : Review), r ∈ collect_reviews script →
      ∃ y, yearSearch r.date = some y ∧ 2023 ≤ y) ∧
    (∀ (b : Elem) (bs : List Elem) (acc : List Review) (l : String) (y : Nat),
      firstYearLine (pySplitNl (pyStrip b.text)) = some (l, y) → y < 2023 →
      scanBlocks (b :: bs) acc = (acc, true)) ∧
    (∀ (p : ReviewPage) (ps : List ReviewPage) (acc : List Review),
      (scanBlocks p.blocks acc).2 = true →
      collectReviewsLoop (p :: ps) acc = (scanBlocks p.blocks acc).1) ∧
    collect_reviews
        [{ blocks := [⟨"Jan 2023", 0, false⟩, ⟨"Dec 2022", 0, false⟩],
           outcome := LoadMoreOutcome.loaded }] =
      [{ date := "Jan 2023", text := "Jan 2023", rating := 5 }] := by
  refine ⟨?_, ?_, ?_, by decide⟩
  · intro script r hr
    refine collectReviewsLoop_mem (fun r => ∃ y, yearSearch r.date = some y ∧ 2023 ≤ y)
      ?_ script [] (by simp) r hr
    intro b l y hfy hy
    exact ⟨y, (firstYearLine_mem _ _ _ hfy).2, Nat.not_lt.1 hy⟩
  · intro b bs acc l y hfy hy
    rw [scanBlocks_cons]
    simp only [hfy]
    rw [if_pos hy]
  · intro p ps acc h2
    rw [collectReviewsLoop_cons, if_pos h2]

/-- Witness for C1 at a concrete run. -/
theorem claim_C1_witness :
    ∃ y, yearSearch "Jan 2023" = some y ∧ 2023 ≤ y :=
  claim_C1_temporal_cutoff.1
    [{ blocks := [⟨"Jan 2023", 0, false⟩, ⟨"Dec 2022", 0, false⟩],
       outcome := LoadMoreOutcome.loaded }]
    { date := "Jan 2023", text := "Jan 2023", rating := 5 } (by decide)

/-- C2: within each collected list no two records share the dedup key
(product title, review text, testimonial text), and a candidate whose key
equals an accepted record's key is dropped without being added. -/
theorem claim_C2_dedup_unique :
    (∀ pages : List (List String),
      (collect_products pages).1.Pairwise (fun a b => a.title ≠ b.title)) ∧
    (∀ script : List ReviewPage,
      (collect_reviews script).Pairwise (fun a b => a.text ≠ b.text)) ∧
    (∀ cards : List Elem,
      (collect_testimonials cards).Pairwise (fun a b => a.text ≠ b.text)) ∧
    (∀ (acc : List Product × Nat) (text : String) (p : Product),
      parse_product text = some p → acc.1.any (fun q => q.title == p.title) = true →
      processCard acc text = acc) ∧
    (∀ (acc : List Testimonial) (card : Elem) (text : String),
      parse_testimonial_text card.text = some text →
      acc.any (fun t => t.text == text) = true →
      processTestimonial acc card = acc) := by
  refine ⟨?_, ?_, ?_, ?_, ?_⟩
  · intro pages
    exact collectProductsAux_pairwise pages [] List.Pairwise.nil
  · intro script
    exact collectReviewsLoop_pairwise script [] List.Pairwise.nil
  · intro cards
    exact collect_testimonials_pairwise cards
  · intro acc text p hp hdup
    simp only [processCard, hp]
    rw [if_pos hdup]
  · intro acc card text hp hdup
    simp only [processTestimonial, hp]
    rw [if_pos hdup]

/-- Witness for C2: a duplicate-titled card is dropped without being added. -/
theorem claim_C2_witness :
    processCard ([{ title := "Apple", price := "$1.00" }], 0) "Apple\n$2.00" =
      ([{ title := "Apple", price := "$1.00" }], 0) :=
  claim_C2_dedup_unique.2.2.2.1 ([{ title := "Apple", price := "$1.00" }], 0)
    "Apple\n$2.00" { title := "Apple", price := "$2.00" } (by decide) (by decide)

/-- C3 counterexample: the price sentinel the code produces for a card
with no price match is `"N/A"`, not `"unavailable"` as claimed. -/
theorem claim_C3_counterexample :
    parse_product "Widget\nout of stock" = some { title := "Widget", price := "N/A" } ∧
    "N/A" ≠ "unavailable" := by
  exact ⟨by decide, by decide⟩

/-- C3 amended: for any card text with no substring matching the price
pattern, the parsed price is the sentinel `"N/A"`; `"Widget\n$12.99 in
stock"` gives price `"$12.99"` and `"Widget\nout of stock"` gives
`"N/A"`. -/
theorem claim_C3_price_sentinel :
    (∀ (text : String) (p : Product), priceSearch (pyStrip text) = none →
      parse_product text = some p → p.price = "N/A") ∧
    parse_product "Widget\nout of stock" = some { title := "Widget", price := "N/A" } ∧
    parse_product "Widget\n$12.99 in stock" =
      some { title := "Widget", price := "$12.99" } := by
  refine ⟨?_, by decide, by decide⟩
  intro text p hn h
  exact parse_product_price_sentinel text p hn h

/-- Witness for C3 at the concrete no-price card. -/
theorem claim_C3_witness :
    Product.price { title := "Widget", price := "N/A" } = "N/A" :=
  claim_C3_price_sentinel.1 "Widget\nout of stock" { title := "Widget", price := "N/A" }
    (by decide) (by decide)

/-- C4 counterexample: a testimonial whose collapsed text has length
exactly 10 is accepted into the output, so texts of length ≤ 10 are not
always absent. -/
theorem claim_C4_counterexample :
    collect_testimonials [⟨"abcdefghij", 0, false⟩] =
      [{ text := "abcdefghij", rating := 5 }] ∧
    pyLen "abcdefghij" ≤ 10 := by
  exact ⟨by decide, by decide⟩

/-- C4 amended: every output testimonial's text has length between 10 and
400 inclusive and contains no boilerplate marker; a candidate whose
collapsed text has length < 10 or > 400 or contains a marker is rejected
(never present in the output). -/
theorem claim_C4_length_filter :
    (∀ (cards : List Elem) (t : Testimonial), t ∈ collect_testimonials cards →
      10 ≤ pyLen t.text ∧ pyLen t.text ≤ 400 ∧
      strContains t.text "Take a look" = false ∧ strContains t.text "collection" = false) ∧
    (∀ raw : String, pyLen (pyStrip (pyReplaceNlSpace raw)) < 10 →
      parse_testimonial_text raw = none) ∧
    (∀ raw : String, 400 < pyLen (pyStrip (pyReplaceNlSpace raw)) →
      parse_testimonial_text raw = none) ∧
    (∀ raw : String, strContains (pyStrip (pyReplaceNlSpace raw)) "Take a look" = true →
      parse_testimonial_text raw = none) ∧
    (∀ raw : String, strContains (pyStrip (pyReplaceNlSpace raw)) "collection" = true →
      parse_testimonial_text raw = none) := by
  refine ⟨?_, parse_testimonial_reject_short, parse_testimonial_reject_long,
    parse_testimonial_reject_look, parse_testimonial_reject_collection⟩
  intro cards t ht
  refine collect_testimonials_mem
    (fun t => 10 ≤ pyLen t.text ∧ pyLen t.text ≤ 400 ∧
      strContains t.text "Take a look" = false ∧ strContains t.text "collection" = false)
    ?_ cards t ht
  intro card text hp
  obtain ⟨-, h1, h2, h3, h4⟩ := parse_testimonial_text_spec card.text text hp
  exact ⟨h3, h4, h1, h2⟩

/-- Witness for C4 at a concrete accepted testimonial. -/
theorem claim_C4_witness :
    10 ≤ pyLen "a wonderful product" ∧ pyLen "a wonderful product" ≤ 400 ∧
    strContains "a wonderful product" "Take a look" = false ∧
    strContains "a wonderful product" "collection" = false :=
  claim_C4_length_filter.1 [⟨"a wonderful product", 0, false⟩]
    { text := "a wonderful product", rating := 5 } (by decide)

/-- C5: every record's rating lies in [0, 5]; with at least one matched
star marker the rating is the marker count clamped to 5, and zero matched
markers yield the explicit default 5. -/
theorem claim_C5_rating_rule :
    (∀ (script : List ReviewPage) (r : Review), r ∈ collect_reviews script →
      0 ≤ r.rating ∧ r.rating ≤ 5) ∧
    (∀ (cards : List Elem) (t : Testimonial), t ∈ collect_testimonials cards →
      0 ≤ t.rating ∧ t.rating ≤ 5) ∧
    (∀ e : Elem, e.lookupFails = false → 0 < e.starNodes →
      ratingOf e = min e.starNodes 5) ∧
    (∀ e : Elem, e.lookupFails = false → e.starNodes = 0 → ratingOf e = 5) := by
  refine ⟨?_, ?_, ratingOf_eq_min, ?_⟩
  · intro script r hr
    refine ⟨Nat.zero_le _, ?_⟩
    refine collectReviewsLoop_mem (fun r => r.rating ≤ 5) ?_ script [] (by simp) r hr
    intro b l y hfy hy
    exact ratingOf_le_five b
  · intro cards t ht
    refine ⟨Nat.zero_le _, ?_⟩
    refine collect_testimonials_mem (fun t => t.rating ≤ 5) ?_ cards t ht
    intro card text hp
    exact ratingOf_le_five card
  · intro e hf hn
    apply ratingOf_of_zero
    unfold extract_star_rating
    rw [hf, hn]
    simp

/-- Witness for C5 at a concrete zero-marker review. -/
theorem claim_C5_witness :
    0 ≤ Review.rating { date := "Jan 2023", text := "Jan 2023", rating := 5 } ∧
    Review.rating { date := "Jan 2023", text := "Jan 2023", rating := 5 } ≤ 5 :=
  claim_C5_rating_rule.1 [{ blocks := [⟨"Jan 2023", 0, false⟩],
                            outcome := LoadMoreOutcome.absent }]
    { date := "Jan 2023", text := "Jan 2023", rating := 5 } (by decide)

/-- C6: the products pass stops, fetching no further page, exactly when
the current page yields zero cards or zero newly accepted records; on the
concrete source whose page 3 repeats page 2's titles, it collects the
union of the unique titles of pages 1-2 and stops after fetching 3
pages. -/
theorem claim_C6_numbered_pagination :
    (∀ (rest : List (List String)) (acc : List Product),
      collectProductsAux ([] :: rest) acc = (acc, 1)) ∧
    (∀ (cards : List String) (rest : List (List String)) (acc : List Product),
      cards ≠ [] → (processPage cards acc).2 = 0 →
      collectProductsAux (cards :: rest) acc = ((processPage cards acc).1, 1)) ∧
    (∀ (cards : List String) (rest : List (List String)) (acc : List Product),
      cards ≠ [] → (processPage cards acc).2 ≠ 0 →
      collectProductsAux (cards :: rest) acc =
        ((collectProductsAux rest (processPage cards acc).1).1,
         (collectProductsAux rest (processPage cards acc).1).2 + 1)) ∧
    collect_products [["Apple\n$1.00", "Banana\n$2.50"],
                      ["Banana\n$2.50", "Cherry\n$3.00"],
                      ["Banana\n$2.50", "Cherry\n$3.00"],
                      ["Durian\n$9.99"]] =
      ([{ title := "Apple", price := "$1.00" }, { title := "Banana", price := "$2.50" },
        { title := "Cherry", price := "$3.00" }], 3) := by
  refine ⟨?_, ?_, ?_, by decide⟩
  · intro rest acc
    rfl
  · intro cards rest acc hne hz
    have he : cards.isEmpty = false := by
      cases cards
      · exact absurd rfl hne
      · rfl
    rw [collectProductsAux_cons, he]
    simp only [Bool.false_eq_true, if_false]
    rw [if_pos hz]
  · intro cards rest acc hne hz
    have he : cards.isEmpty = false := by
      cases cards
      · exact absurd rfl hne
      · rfl
    rw [collectProductsAux_cons, he]
    simp only [Bool.false_eq_true, if_false]
    rw [if_neg hz]

/-- Witness for C6: a page adding nothing new ends the pass there. -/
theorem claim_C6_witness :
    collectProductsAux [["Apple\n$1.00"]] [{ title := "Apple", price := "$1.00" }] =
      ((processPage ["Apple\n$1.00"] [{ title := "Apple", price := "$1.00" }]).1, 1) :=
  claim_C6_numbered_pagination.2.1 ["Apple\n$1.00"] []
    [{ title := "Apple", price := "$1.00" }] (by decide) (by decide)

/-- C7: an absent or hidden load-more control, or a timed-out wait, makes
the review pass terminate normally with the reviews accepted so far. -/
theorem claim_C7_load_more_degrades :
    (∀ o : LoadMoreOutcome, (∃ e, loadMoreAttempt o = Except.error e) →
      loadMoreContinue o = false) ∧
    loadMoreAttempt LoadMoreOutcome.notVisible = Except.ok false ∧
    (∀ (p : ReviewPage) (ps : List ReviewPage) (acc : List Review),
      p.outcome = LoadMoreOutcome.absent ∨ p.outcome = LoadMoreOutcome.notVisible ∨
        p.outcome = LoadMoreOutcome.timeout →
      collectReviewsLoop (p :: ps) acc = (scanBlocks p.blocks acc).1) := by
  refine ⟨?_, rfl, ?_⟩
  · intro o he
    obtain ⟨e, he⟩ := he
    unfold loadMoreContinue
    rw [he]
  · intro p ps acc h
    have hlm : loadMoreContinue p.outcome = false := by
      rcases h with h | h | h <;> rw [h] <;> rfl
    rw [collectReviewsLoop_cons]
    by_cases h2 : (scanBlocks p.blocks acc).2 = true
    · rw [if_pos h2]
    · rw [if_neg h2, hlm]
      simp

/-- Witness for C7: a timed-out wait returns the reviews accepted so far
even though the script offers a further page. -/
theorem claim_C7_witness :
    collectReviewsLoop
        [{ blocks := [⟨"Jan 2023", 0, false⟩], outcome := LoadMoreOutcome.timeout },
         { blocks := [⟨"Feb 2023", 0, false⟩], outcome := LoadMoreOutcome.loaded }] [] =
      (scanBlocks [⟨"Jan 2023", 0, false⟩] []).1 :=
  claim_C7_load_more_degrades.2.2
    { blocks := [⟨"Jan 2023", 0, false⟩], outcome := LoadMoreOutcome.timeout }
    [{ blocks := [⟨"Feb 2023", 0, false⟩], outcome := LoadMoreOutcome.loaded }] []
    (Or.inr (Or.inr rfl))

/-- C8: the driver is shut down on every exit path, and the output
document exists exactly when all three passes complete; a propagated
error means no document is written. -/
theorem claim_C8_all_or_nothing :
    (∀ (pr : Except String (List Product)) (rr : Except String (List Review))
       (tr : Except String (List Testimonial)),
      (run_scraper pr rr tr).driverQuit = true) ∧
    (∀ (pr : Except String (List Product)) (rr : Except String (List Review))
       (tr : Except String (List Testimonial)),
      (run_scraper pr rr tr).written ≠ none ↔
        (∃ p, pr = Except.ok p) ∧ (∃ r, rr = Except.ok r) ∧ (∃ t, tr = Except.ok t)) ∧
    (∀ (pr : Except String (List Product)) (rr : Except String (List Review))
       (tr : Except String (List Testimonial)) (e : String),
      (run_scraper pr rr tr).error = some e → (run_scraper pr rr tr).written = none) := by
  refine ⟨?_, ?_, ?_⟩
  · intro pr rr tr
    unfold run_scraper
    rcases runCollection pr rr tr with e | doc <;> rfl
  · intro pr rr tr
    rcases pr with e | p <;> rcases rr with e' | r <;> rcases tr with e'' | t <;>
      simp [run_scraper, runCollection]
  · intro pr rr tr e he
    rcases h : runCollection pr rr tr with e' | doc
    · simp [run_scraper, h]
    · simp [run_scraper, h] at he

/-- Witness for C8: a failing reviews pass writes nothing but still quits
the driver. -/
theorem claim_C8_witness :
    (run_scraper (Except.ok []) (Except.error "SessionFatalError") (Except.ok [])).written =
      none :=
  claim_C8_all_or_nothing.2.2 (Except.ok []) (Except.error "SessionFatalError")
    (Except.ok []) "SessionFatalError" rfl

/-- C9: every output rating is at least 1: a zero star count, including
the exception fallback, is replaced by the default 5, so rating 0 never
appears in any output record. -/
theorem claim_C9_rating_never_zero :
    (∀ (script : List ReviewPage) (r : Review), r ∈ collect_reviews script →
      1 ≤ r.rating) ∧
    (∀ (cards : List Elem) (t : Testimonial), t ∈ collect_testimonials cards →
      1 ≤ t.rating) ∧
    (∀ e : Elem, ratingOf e ≠ 0) ∧
    (∀ e : Elem, e.lookupFails = true → ratingOf e = 5) ∧
    (∀ e : Elem, extract_star_rating e = 0 → ratingOf e = 5) := by
  refine ⟨?_, ?_, ?_, ?_, ratingOf_of_zero⟩
  · intro script r hr
    exact collectReviewsLoop_mem (fun r => 1 ≤ r.rating)
      (fun b l y hfy hy => ratingOf_pos b) script [] (by simp) r hr
  · intro cards t ht
    exact collect_testimonials_mem (fun t => 1 ≤ t.rating)
      (fun card text hp => ratingOf_pos card) cards t ht
  · intro e
    have := ratingOf_pos e
    omega
  · intro e hf
    apply ratingOf_of_zero
    unfold extract_star_rating
    rw [hf]
    simp

/-- Witness for C9 at a concrete zero-marker testimonial. -/
theorem claim_C9_witness :
    1 ≤ Testimonial.rating { text := "a wonderful product", rating := 5 } :=
  claim_C9_rating_never_zero.2.1 [⟨"a wonderful product", 0, false⟩]
    { text := "a wonderful product", rating := 5 } (by decide)

/-- C10: the year token is `20` followed by two digits (2000..2099); the
date comes from the first line with such a token; a block with no such
token is skipped without producing a record or triggering the cutoff, as
the concrete 1999 block shows. -/
theorem claim_C10_year_token :
    (∀ (line : String) (y : Nat), yearSearch line = some y → 2000 ≤ y ∧ y ≤ 2099) ∧
    (∀ (ls : List String) (l : String) (y : Nat), firstYearLine ls = some (l, y) →
      l ∈ ls ∧ yearSearch l = some y) ∧
    (∀ (l : String) (ls : List String), yearSearch l = none →
      firstYearLine (l :: ls) = firstYearLine ls) ∧
    (∀ (l : String) (ls : List String) (y : Nat), yearSearch l = some y →
      firstYearLine (l :: ls) = some (l, y)) ∧
    (∀ (b : Elem) (bs : List Elem) (acc : List Review),
      firstYearLine (pySplitNl (pyStrip b.text)) = none →
      scanBlocks (b :: bs) acc = scanBlocks bs acc) ∧
    collect_reviews
        [{ blocks := [⟨"Great\nJan 1999", 0, false⟩, ⟨"Nice\nFeb 2023", 0, false⟩],
           outcome := LoadMoreOutcome.absent }] =
      [{ date := "Feb 2023", text := "Feb 2023", rating := 5 }] := by
  refine ⟨yearSearch_bound, firstYearLine_mem, firstYearLine_skip, firstYearLine_hit,
    ?_, by decide⟩
  intro b bs acc hfy
  rw [scanBlocks_cons]
  simp only [hfy]

/-- Witness for C10 at a concrete dated line. -/
theorem claim_C10_witness :
    yearSearch "Feb 2023" = some 2023 ∧ (2000 ≤ 2023 ∧ 2023 ≤ 2099) :=
  ⟨by decide, claim_C10_year_token.1 "Feb 2023" 2023 (by decide)⟩

end Scraper
